import Mathlib

/-!
Shallow embedding of the dual-store chat-history layer of this repository:
the SQLite persistence wrapper (`src/db/sqlite_manager.py`), the ChromaDB
vector-store wrapper (`src/db/vector_store.py`), the Ollama HTTP client
(`src/utils/ollama_utils.py`) and the retrieval merge layer
(`src/utils/rag_utils.py`).

Modelling conventions:
* SQLite tables become lists of row structures; `SELECT`, `DELETE` and
  `ORDER BY` become filters and a structural insertion sort (the SQLite
  `ORDER BY` on `TEXT` columns uses the BINARY collation, i.e. bytewise
  order of the UTF-8 encoding, which coincides with code-point
  lexicographic order, modelled by `listLex`).
* Nondeterministic effects (`uuid.uuid4()`, `datetime.now()`) are explicit
  parameters.
* Fallible external calls are modelled by an explicit outcome parameter:
  an `Option SqlErr` for the sqlite driver (`some e` means the driver
  raised `sqlite3.Error e` somewhere inside the `try` block) and
  `Except`-typed results for HTTP and ChromaDB calls.  Each wrapper maps
  the error outcome to the fallback value its `except` clause returns.
* Python dict access on a row dict is modelled by `msgDictGet`; access to
  a missing key (`KeyError`) yields `none`, and the surrounding loop
  aborts the way the enclosing `try`/`except` does.
-/

namespace StAgno

/-- Prefix test on character lists (helper for the SQL LIKE match). -/
def chPre : List Char → List Char → Bool
  | [], _ => true
  | _ :: _, [] => false
  | a :: s, b :: t => a == b && chPre s t

/-- Substring test on character lists. -/
def chSub (pat : List Char) : List Char → Bool
  | [] => chPre pat []
  | l@(_ :: t) => chPre pat l || chSub pat t

/-- Models the SQL pattern match of content against percent-query-percent,
for a query without LIKE wildcard characters: substring containment. -/
def likeContains (content query : String) : Bool :=
  chSub query.data content.data

/-- Lexicographic (code-point) order on character lists; models the SQLite
BINARY collation on TEXT columns, since UTF-8 bytewise order coincides
with code-point order. -/
def listLex : List Char → List Char → Bool
  | [], _ => true
  | _ :: _, [] => false
  | a :: s, b :: t => if a = b then listLex s t else decide (a < b)

/-- String comparison used to model `ORDER BY` on TEXT columns. -/
def strLeB (s t : String) : Bool := listLex s.data t.data

/-- Schema of one SQL table: name, column list, primary key and foreign
keys as (column, referenced table, referenced column) triples. -/
structure TableDef where
  name : String
  columns : List String
  primaryKey : String
  foreignKeys : List (String × String × String)
deriving DecidableEq

/-- The `conversations` table created by `SQLiteManager._create_tables`. -/
def conversationsTableDef : TableDef :=
  { name := "conversations"
    columns := ["id", "title", "created_at", "model", "updated_at"]
    primaryKey := "id"
    foreignKeys := [] }

/-- The `messages` table created by `SQLiteManager._create_tables`, with its
foreign key `conversation_id REFERENCES conversations (id)`. -/
def messagesTableDef : TableDef :=
  { name := "messages"
    columns := ["id", "conversation_id", "role", "content", "created_at"]
    primaryKey := "id"
    foreignKeys := [("conversation_id", "conversations", "id")] }

/-- One row of the `conversations` table. -/
structure ConvRow where
  id : String
  title : String
  created_at : String
  model : String
  updated_at : String
deriving DecidableEq

/-- One row of the `messages` table. -/
structure MsgRow where
  id : String
  conversation_id : String
  role : String
  content : String
  created_at : String
deriving DecidableEq

/-- State of the SQLite database file: schema plus stored rows. -/
structure Database where
  schema : List TableDef
  convRows : List ConvRow
  msgRows : List MsgRow
deriving DecidableEq

/-- A database file before any table has been created. -/
def emptyDatabase : Database := { schema := [], convRows := [], msgRows := [] }

/-- An `sqlite3.Error` raised by the driver (carries its message). -/
structure SqlErr where
  msg : String
deriving DecidableEq

/-- Models one `CREATE TABLE IF NOT EXISTS` statement. -/
def createTableIfAbsent (schema : List TableDef) (t : TableDef) : List TableDef :=
  if schema.any (fun u => u.name == t.name) then schema else schema ++ [t]

/-- Models `SQLiteManager._create_tables`: two `CREATE TABLE IF NOT EXISTS`
statements, for `conversations` then `messages`. -/
def create_tables (db : Database) : Database :=
  { db with
    schema := createTableIfAbsent (createTableIfAbsent db.schema conversationsTableDef)
      messagesTableDef }

/-- Models `SQLiteManager.create_conversation`.  `cid` is the fresh
`uuid.uuid4()` string and `ts` the `datetime.now().isoformat()` value; a
clash of `cid` with an existing primary key makes the `INSERT` raise, and
the `except sqlite3.Error` clause returns `None`.  `io` injects a
driver-level failure of the `try` block. -/
def create_conversation (db : Database) (cid title model ts : String)
    (io : Option SqlErr) : Database × Option String :=
  match io with
  | some _ => (db, none)
  | none =>
    if db.convRows.any (fun c => c.id == cid) then (db, none)
    else
      ({ db with
          convRows := db.convRows ++
            [{ id := cid, title := title, created_at := ts, model := model,
               updated_at := ts }] },
        some cid)

/-- Models `SQLiteManager.add_message`: inserts one row into `messages`
(and touches nothing else); returns the new message id, or `None` when the
`INSERT` raised. -/
def add_message (db : Database) (mid cid role content ts : String)
    (io : Option SqlErr) : Database × Option String :=
  match io with
  | some _ => (db, none)
  | none =>
    if db.msgRows.any (fun m => m.id == mid) then (db, none)
    else
      ({ db with
          msgRows := db.msgRows ++
            [{ id := mid, conversation_id := cid, role := role, content := content,
               created_at := ts }] },
        some mid)

/-- The dict returned by `SQLiteManager.get_conversation`: the conversation
row columns plus the `messages` list. -/
structure Conversation where
  id : String
  title : String
  created_at : String
  model : String
  updated_at : String
  messages : List MsgRow
deriving DecidableEq

/-- Order on message rows used by `ORDER BY created_at`. -/
def msgByCreatedAt (a b : MsgRow) : Prop := strLeB a.created_at b.created_at = true

instance : DecidableRel msgByCreatedAt := fun a b =>
  inferInstanceAs (Decidable (strLeB a.created_at b.created_at = true))

/-- Order on conversation rows used by `ORDER BY c.updated_at DESC`. -/
def convByUpdatedDesc (a b : ConvRow) : Prop := strLeB b.updated_at a.updated_at = true

instance : DecidableRel convByUpdatedDesc := fun a b =>
  inferInstanceAs (Decidable (strLeB b.updated_at a.updated_at = true))

/-- Models `SQLiteManager.get_conversation`: `SELECT * FROM conversations
WHERE id = ?` then `SELECT * FROM messages WHERE conversation_id = ? ORDER BY
created_at`; `None` when no row is found or the driver raised. -/
def get_conversation (db : Database) (cid : String) (io : Option SqlErr) :
    Option Conversation :=
  match io with
  | some _ => none
  | none =>
    match db.convRows.find? (fun c => c.id == cid) with
    | none => none
    | some c =>
      some { id := c.id, title := c.title, created_at := c.created_at,
             model := c.model, updated_at := c.updated_at,
             messages := List.insertionSort msgByCreatedAt
               (db.msgRows.filter (fun m => m.conversation_id == cid)) }

/-- One row of the summary query in `SQLiteManager.get_all_conversations`. -/
structure ConvSummary where
  row : ConvRow
  message_count : Nat
  first_message : Option String
deriving DecidableEq

/-- Models `SQLiteManager.get_all_conversations`: conversations ordered by
`updated_at DESC` with pagination, plus message count and first message
content; empty list when the driver raised. -/
def get_all_conversations (db : Database) (limit offset : Nat) (io : Option SqlErr) :
    List ConvSummary :=
  match io with
  | some _ => []
  | none =>
    (((List.insertionSort convByUpdatedDesc db.convRows).drop offset).take limit).map
      (fun c =>
        { row := c
          message_count :=
            (db.msgRows.filter (fun m => m.conversation_id == c.id)).length
          first_message :=
            (List.insertionSort msgByCreatedAt
              (db.msgRows.filter (fun m => m.conversation_id == c.id))).head?.map
              (fun m => m.content) })

/-- Models `SQLiteManager.search_conversations`: conversations with at least
one message whose content matches the LIKE pattern, ordered by `updated_at
DESC`, limited; empty list when the driver raised. -/
def search_conversations (db : Database) (query : String) (limit : Nat)
    (io : Option SqlErr) : List ConvRow :=
  match io with
  | some _ => []
  | none =>
    (List.insertionSort convByUpdatedDesc
      (db.convRows.filter (fun c =>
        db.msgRows.any (fun m =>
          m.conversation_id == c.id && likeContains m.content query)))).take limit

/-- Models `SQLiteManager.delete_conversation`: deletes the message rows of
the conversation, then the conversation row, and returns `True`; on a driver
failure the `except` clause returns `False` (the uncommitted work is treated
as not persisted). -/
def delete_conversation_sql (db : Database) (cid : String) (io : Option SqlErr) :
    Database × Bool :=
  match io with
  | some _ => (db, false)
  | none =>
    ({ db with
        msgRows := db.msgRows.filter (fun m => !(m.conversation_id == cid))
        convRows := db.convRows.filter (fun c => !(c.id == cid)) },
      true)

/-- A `requests` exception (timeout, connection error, ...). -/
structure ReqErr where
  msg : String
deriving DecidableEq

/-- One entry of the `models` array of the Ollama `/api/tags` response; the
callers use `model.get("name")`, so the name is optional. -/
structure ModelEntry where
  name : Option String
deriving DecidableEq

/-- The `/api/tags` HTTP response: status code and the `models` field of the
JSON body (`response.json().get("models", [])` defaults to the empty list
when the key is absent). -/
structure TagsResp where
  status_code : Nat
  models_field : Option (List ModelEntry)
deriving DecidableEq

/-- Models `OllamaAPI.list_models`: the `models` field on HTTP 200, the empty
list on any other status code or on a raised request exception. -/
def list_models (resp : Except ReqErr TagsResp) : List ModelEntry :=
  match resp with
  | .error _ => []
  | .ok r => if r.status_code == 200 then r.models_field.getD [] else []

/-- The `/api/show` HTTP response: status code and the JSON body, modelled as
an association list. -/
structure ShowResp where
  status_code : Nat
  body : List (String × String)
deriving DecidableEq

/-- Models `OllamaAPI.get_model_info`: the JSON body on HTTP 200, `None` on
any other status code or on a raised request exception. -/
def get_model_info (resp : Except ReqErr ShowResp) : Option (List (String × String)) :=
  match resp with
  | .error _ => none
  | .ok r => if r.status_code == 200 then some r.body else none

/-- Metadata dict attached to a vector record; every field is optional
because the consumers read it with `metadata.get(key, default)`. -/
structure VecMeta where
  conversation_id : Option String
  conversation_title : Option String
  role : Option String
  timestamp : Option String
  score : Option Int
deriving DecidableEq

/-- One record of the ChromaDB collection: document id, document text and
metadata. -/
structure VecRecord where
  message_id : String
  content : String
  meta : VecMeta
deriving DecidableEq

/-- Failure of a ChromaDB / LangChain call: an embedding-dimension mismatch
(which triggers `_recreate_collection`) or any other exception. -/
inductive ChromaFail where
  | dimMismatch (msg : String)
  | other (msg : String)
deriving DecidableEq

/-- A document returned by `langchain_chroma.similarity_search`. -/
structure RawDoc where
  page_content : String
  metadata : VecMeta
deriving DecidableEq

/-- A formatted result of `VectorStore.semantic_search`:
`{"content": ..., "metadata": ..., "score": metadata.get("score", 0)}`. -/
structure SemDoc where
  content : String
  metadata : VecMeta
  score : Int
deriving DecidableEq

/-- Models `VectorStore.semantic_search`.  `hasCollection` is the
`self.langchain_chroma` / `self.collection` initialization guard; `call` is
the outcome of the similarity search.  Returns the collection state after
the call, the formatted results, and the `was_reset` flag: a
dimension-mismatch failure runs `_recreate_collection` (emptying the
collection, setting `was_reset`) and returns the empty list, any other
failure returns the empty list, and an uninitialized store returns the
empty list immediately. -/
def semantic_search (hasCollection : Bool) (store : List VecRecord)
    (call : Except ChromaFail (List RawDoc)) :
    List VecRecord × List SemDoc × Bool :=
  if !hasCollection then (store, [], false)
  else
    match call with
    | .ok docs =>
      (store,
        docs.map (fun d =>
          { content := d.page_content, metadata := d.metadata,
            score := d.metadata.score.getD 0 }),
        false)
    | .error (.dimMismatch _) => ([], [], true)
    | .error (.other _) => (store, [], false)

/-- Models the happy path of `VectorStore.add_message` together with its
`if not self.collection` guard (the dimension-mismatch recovery paths are
not needed by any claim): append the record and return `True`, or return
`False` without touching anything when the collection is uninitialized. -/
def vs_add_message (hasCollection : Bool) (store : List VecRecord)
    (mid content : String) (meta : VecMeta) : List VecRecord × Bool :=
  if !hasCollection then (store, false)
  else (store ++ [{ message_id := mid, content := content, meta := meta }], true)

/-- Models `VectorStore.delete_conversation_messages`: fetch the ids whose
metadata `conversation_id` equals the argument and delete them, returning
`True`; with an uninitialized collection (`if not self.collection`) it
returns `False` without deleting anything. -/
def vs_delete_conversation_messages (hasCollection : Bool) (store : List VecRecord)
    (cid : String) : List VecRecord × Bool :=
  if !hasCollection then (store, false)
  else (store.filter (fun r => !(r.meta.conversation_id == some cid)), true)

/-- A context item appended to `results` in `RAGSystem.search`; `score` is
present only on semantic items, matching the Python dicts. -/
structure CtxItem where
  content : String
  source : String
  conversation_id : String
  conversation_title : String
  timestamp : String
  score : Option Int
deriving DecidableEq

/-- Dict access on a message row dict as produced by `dict(row)` from
`SELECT * FROM messages`: exactly the five column names are present; any
other key raises `KeyError`, modelled as `none`. -/
def msgDictGet (m : MsgRow) (key : String) : Option String :=
  if key == "id" then some m.id
  else if key == "conversation_id" then some m.conversation_id
  else if key == "role" then some m.role
  else if key == "content" then some m.content
  else if key == "created_at" then some m.created_at
  else none

/-- Builds the text-search context item of `RAGSystem.search` (lines 58-64):
the dict literal reads `msg["content"]` and `msg["timestamp"]`; a missing
key makes the construction raise `KeyError`, modelled as `none`. -/
def mkTextItem (conv : ConvRow) (m : MsgRow) : Option CtxItem :=
  match msgDictGet m "content", msgDictGet m "timestamp" with
  | some c, some ts =>
    some { content := c, source := "text_search", conversation_id := conv.id,
           conversation_title := conv.title, timestamp := ts, score := none }
  | _, _ => none

/-- The inner message loop of the text branch of `RAGSystem.search`: items
for assistant messages are appended to the accumulator; a `KeyError` during
item construction aborts the whole branch (`Except.error` carries the items
appended so far, which the enclosing `try`/`except` keeps). -/
def textMsgsLoop (conv : ConvRow) (acc : List CtxItem) :
    List MsgRow → Except (List CtxItem) (List CtxItem)
  | [] => .ok acc
  | m :: rest =>
    if m.role == "assistant" then
      match mkTextItem conv m with
      | some item => textMsgsLoop conv (acc ++ [item]) rest
      | none => .error acc
    else textMsgsLoop conv acc rest

/-- The outer conversation loop of the text branch of `RAGSystem.search`:
each matching conversation is refetched with `get_conversation` and its
messages processed; a raised `KeyError` aborts the branch. -/
def textConvsLoop (db : Database) (acc : List CtxItem) :
    List ConvRow → Except (List CtxItem) (List CtxItem)
  | [] => .ok acc
  | conv :: rest =>
    match get_conversation db conv.id none with
    | none => textConvsLoop db acc rest
    | some full =>
      match textMsgsLoop conv acc full.messages with
      | .ok acc2 => textConvsLoop db acc2 rest
      | .error acc2 => .error acc2

/-- The complete text branch of `RAGSystem.search` (lines 46-69): keyword
search over conversations, then the two loops; whether or not an exception
was swallowed, the accumulated items are what remains in `results`. -/
def textResults (db : Database) (query : String) (limit : Nat) : List CtxItem :=
  match textConvsLoop db [] (search_conversations db query limit none) with
  | .ok acc => acc
  | .error acc => acc

/-- Builds the semantic-search context item of `RAGSystem.search`
(lines 85-92), with the `metadata.get(key, default)` fallbacks. -/
def mkSemItem (r : SemDoc) : CtxItem :=
  { content := r.content, source := "semantic_search",
    conversation_id := r.metadata.conversation_id.getD "unknown",
    conversation_title := r.metadata.conversation_title.getD "Unknown",
    timestamp := r.metadata.timestamp.getD "unknown",
    score := some r.score }

/-- The deduplication key of `RAGSystem.search` (line 103): the Python
format string joining the conversation id, an underscore, and the first 50
characters of the content. -/
def dedupKey (r : CtxItem) : String :=
  r.conversation_id ++ "_" ++ r.content.take 50

/-- The deduplication pass of `RAGSystem.search` (lines 100-105): a dict
keyed by `dedupKey` keeps only the first item per key, in insertion order
(CPython dicts preserve insertion order). -/
def dedupByKey (seen : List String) : List CtxItem → List CtxItem
  | [] => []
  | r :: rest =>
    if seen.contains (dedupKey r) then dedupByKey seen rest
    else r :: dedupByKey (seen ++ [dedupKey r]) rest

/-- The final step of `RAGSystem.search` (lines 99-108): deduplicate, then
cut to `limit` (`list(unique_results.values())[:limit]`). -/
def finalizeResults (results : List CtxItem) (limit : Nat) : List CtxItem :=
  (dedupByKey [] results).take limit

/-- In-memory state of a `RAGSystem` together with its two stores:
the SQLite database, the ChromaDB collection (`hasCollection` is false when
`VectorStore.__init__` failed and left `self.collection = None`) and the
`chroma_reset` flag. -/
structure RAGState where
  db : Database
  hasCollection : Bool
  vstore : List VecRecord
  chromaReset : Bool
deriving DecidableEq

/-- Models `RAGSystem.search` (lines 30-108): text branch, semantic branch
guarded by `use_semantic and not self.chroma_reset` with the `was_reset`
check after the call, then dedup and truncation.  Returns the updated state
(the `chroma_reset` flag can be set) and the result list. -/
def rag_search (s : RAGState) (query : String) (useSemantic useText : Bool)
    (limit : Nat) (semCall : Except ChromaFail (List RawDoc)) :
    RAGState × List CtxItem :=
  let textR := if useText then textResults s.db query limit else []
  if useSemantic && !s.chromaReset then
    let res := semantic_search s.hasCollection s.vstore semCall
    if res.2.2 then
      ({ s with vstore := res.1, chromaReset := true }, finalizeResults textR limit)
    else
      ({ s with vstore := res.1 },
        finalizeResults (textR ++ res.2.1.map mkSemItem) limit)
  else (s, finalizeResults textR limit)

/-- Models `RAGSystem.add_message_to_stores`: insert into SQLite; when that
succeeded, the role is `assistant` and the reset flag is clear, also insert
into the vector store with the metadata dict built at lines 180-186. -/
def add_message_to_stores (s : RAGState) (mid cid role content ts title : String)
    (io : Option SqlErr) : RAGState × Option String :=
  let r := add_message s.db mid cid role content ts io
  match r.2 with
  | none => ({ s with db := r.1 }, none)
  | some m =>
    if role == "assistant" && !s.chromaReset then
      let v := vs_add_message s.hasCollection s.vstore m content
        { conversation_id := some cid, conversation_title := some title,
          role := some role, timestamp := some "", score := none }
      ({ s with db := r.1, vstore := v.1 }, some m)
    else ({ s with db := r.1 }, some m)

/-- Models `RAGSystem.delete_conversation`: delete the vector
records of the conversation unless the reset flag is set (the returned success flag of the
vector deletion is ignored), then delete from SQLite and return that
result. -/
def rag_delete_conversation (s : RAGState) (cid : String) (io : Option SqlErr) :
    RAGState × Bool :=
  let store2 :=
    if !s.chromaReset then (vs_delete_conversation_messages s.hasCollection s.vstore cid).1
    else s.vstore
  let r := delete_conversation_sql s.db cid io
  ({ s with vstore := store2, db := r.1 }, r.2)

/-! Order-theoretic facts about the modelled BINARY collation. -/

theorem listLex_total : ∀ x y : List Char, listLex x y = true ∨ listLex y x = true
  | [], _ => Or.inl rfl
  | _ :: _, [] => Or.inr rfl
  | a :: s, b :: t => by
    by_cases h : a = b
    · subst h
      rcases listLex_total s t with ih | ih
      · exact Or.inl (by simp [listLex, ih])
      · exact Or.inr (by simp [listLex, ih])
    · rcases lt_or_gt_of_ne h with hlt | hgt
      · exact Or.inl (by simp [listLex, h, hlt])
      · have h' : ¬b = a := fun hh => h hh.symm
        exact Or.inr (by simp [listLex, h', hgt])

theorem listLex_trans : ∀ x y z : List Char,
    listLex x y = true → listLex y z = true → listLex x z = true
  | [], _, _ => fun _ _ => rfl
  | _ :: _, [], _ => fun h1 _ => by simp [listLex] at h1
  | _ :: _, _ :: _, [] => fun _ h2 => by simp [listLex] at h2
  | a :: s, b :: t, c :: u => by
    intro h1 h2
    by_cases hab : a = b <;> by_cases hbc : b = c
    · subst hab; subst hbc
      simp only [listLex, if_pos rfl] at h1 h2 ⊢
      exact listLex_trans s t u h1 h2
    · subst hab
      simp only [listLex, if_pos rfl, if_neg hbc] at h2 ⊢
      exact h2
    · subst hbc
      simp only [listLex, if_pos rfl, if_neg hab] at h1 ⊢
      exact h1
    · simp only [listLex, if_neg hab, decide_eq_true_eq] at h1
      simp only [listLex, if_neg hbc, decide_eq_true_eq] at h2
      have hac : a < c := lt_trans h1 h2
      simp [listLex, ne_of_lt hac, hac]

theorem strLeB_total (s t : String) : strLeB s t = true ∨ strLeB t s = true :=
  listLex_total s.data t.data

theorem strLeB_trans {a b c : String} (h1 : strLeB a b = true) (h2 : strLeB b c = true) :
    strLeB a c = true :=
  listLex_trans a.data b.data c.data h1 h2

instance : IsTotal MsgRow msgByCreatedAt :=
  ⟨fun a b => strLeB_total a.created_at b.created_at⟩

instance : IsTrans MsgRow msgByCreatedAt :=
  ⟨fun _ _ _ h1 h2 => strLeB_trans h1 h2⟩

/-! Claim theorems. -/

/-- C10: for every conversation id with stored messages, the messages list
returned by `SQLiteManager.get_conversation` is sorted in non-decreasing
(lexicographic, hence chronological for ISO-8601 strings) order of the
`created_at` column, as produced by `ORDER BY created_at`. -/
theorem get_conversation_messages_sorted (db : Database) (cid : String)
    (conv : Conversation) (h : get_conversation db cid none = some conv) :
    conv.messages.Pairwise msgByCreatedAt := by
  unfold get_conversation at h
  cases hf : db.convRows.find? (fun c => c.id == cid) with
  | none => rw [hf] at h; cases h
  | some c =>
    rw [hf] at h
    injection h with h
    rw [← h]
    exact List.sorted_insertionSort msgByCreatedAt
      (db.msgRows.filter (fun m => m.conversation_id == cid))

/-- Database used by the C10 witness: two messages stored in reverse
chronological order. -/
def sortWitnessDb : Database :=
  { schema := []
    convRows := [{ id := "c1", title := "T", created_at := "t0", model := "llama3.1",
                   updated_at := "t0" }]
    msgRows :=
      [{ id := "m2", conversation_id := "c1", role := "assistant", content := "later",
         created_at := "2024-02-01T00:00:00" },
       { id := "m1", conversation_id := "c1", role := "user", content := "earlier",
         created_at := "2024-01-01T00:00:00" }] }

/-- Conversation returned for `sortWitnessDb`, with the messages sorted. -/
def sortWitnessConv : Conversation :=
  { id := "c1", title := "T", created_at := "t0", model := "llama3.1", updated_at := "t0"
    messages :=
      [{ id := "m1", conversation_id := "c1", role := "user", content := "earlier",
         created_at := "2024-01-01T00:00:00" },
       { id := "m2", conversation_id := "c1", role := "assistant", content := "later",
         created_at := "2024-02-01T00:00:00" }] }

/-- Witness for C10 at a concrete database. -/
theorem get_conversation_messages_sorted_witness :
    get_conversation sortWitnessDb "c1" none = some sortWitnessConv ∧
    sortWitnessConv.messages.Pairwise msgByCreatedAt :=
  ⟨by decide, get_conversation_messages_sorted sortWitnessDb "c1" sortWitnessConv (by decide)⟩

/-- C6: a conversation created by `SQLiteManager.create_conversation` (with a
fresh uuid, so the `INSERT` succeeds) round-trips through
`SQLiteManager.get_conversation`: the returned conversation exists and its
`id`, `title` and `model` fields equal the created values. -/
theorem create_conversation_round_trip (db : Database) (cid title model ts : String)
    (h : (create_conversation db cid title model ts none).2 = some cid) :
    ((get_conversation (create_conversation db cid title model ts none).1 cid none).map
      (fun conv => (conv.id, conv.title, conv.model))) = some (cid, title, model) := by
  cases hany : db.convRows.any (fun c => c.id == cid) with
  | true => simp [create_conversation, hany] at h
  | false =>
    have h1 : db.convRows.find? (fun c => c.id == cid) = none := by
      rw [List.find?_eq_none]
      intro x hx
      simpa using List.any_eq_false.mp hany x hx
    simp [create_conversation, get_conversation, hany, List.find?_append, h1, List.find?]

/-- Witness for C6 at a concrete database. -/
theorem create_conversation_round_trip_witness :
    ((get_conversation
        (create_conversation emptyDatabase "c1" "Hello" "llama3.1" "2024-01-01T00:00:00"
          none).1 "c1" none).map (fun conv => (conv.id, conv.title, conv.model))) =
      some ("c1", "Hello", "llama3.1") :=
  create_conversation_round_trip emptyDatabase "c1" "Hello" "llama3.1"
    "2024-01-01T00:00:00" (by decide)

/-- C1 (amended): `SQLiteManager.add_message` inserts only into the
`messages` table; the parent conversation row — its `updated_at` timestamp
included — and the rest of the `conversations` table are left completely
unchanged. -/
theorem add_message_leaves_conversation_rows (db : Database)
    (mid cid role content ts : String) (io : Option SqlErr) :
    ((add_message db mid cid role content ts io).1).convRows = db.convRows ∧
    ((add_message db mid cid role content ts io).1).schema = db.schema := by
  unfold add_message
  cases io with
  | some e => exact ⟨rfl, rfl⟩
  | none => by_cases h : db.msgRows.any (fun m => m.id == mid) = true <;> simp [h]

/-- Conversation store used by the C1 counterexample. -/
def staleDb : Database :=
  { schema := []
    convRows := [{ id := "c1", title := "T", created_at := "2024-01-01T00:00:00",
                   model := "llama3.1", updated_at := "2024-01-01T00:00:00" }]
    msgRows := [] }

/-- Counterexample to C1 as stated: a message inserted at
`2024-03-05T12:00:00` succeeds, yet the updated_at field of the parent conversation
still holds its creation value, which differs from the insertion time. -/
theorem add_message_does_not_update_timestamp :
    ((add_message staleDb "m1" "c1" "user" "hi" "2024-03-05T12:00:00" none).2 =
      some "m1") ∧
    (((add_message staleDb "m1" "c1" "user" "hi" "2024-03-05T12:00:00" none).1).convRows.map
      ConvRow.updated_at = ["2024-01-01T00:00:00"]) ∧
    ("2024-01-01T00:00:00" : String) ≠ "2024-03-05T12:00:00" := by decide

theorem createTableIfAbsent_of_present {s : List TableDef} {t : TableDef}
    (h : s.any (fun u => u.name == t.name) = true) : createTableIfAbsent s t = s := by
  unfold createTableIfAbsent
  simp [h]

theorem name_present_createTableIfAbsent (s : List TableDef) (t : TableDef) :
    (createTableIfAbsent s t).any (fun u => u.name == t.name) = true := by
  unfold createTableIfAbsent
  by_cases h : s.any (fun u => u.name == t.name) = true
  · simp [h]
  · simp only [h, if_false, Bool.false_eq_true]
    simp [List.any_append]

theorem name_present_mono {s : List TableDef} {t2 : TableDef} (t : TableDef)
    (h : s.any (fun u => u.name == t2.name) = true) :
    (createTableIfAbsent s t).any (fun u => u.name == t2.name) = true := by
  unfold createTableIfAbsent
  by_cases hp : s.any (fun u => u.name == t.name) = true
  · simp [hp, h]
  · simp only [hp, if_false, Bool.false_eq_true]
    simp [List.any_append, h]

/-- C8: `SQLiteManager._create_tables` is idempotent: a second run changes
neither the schema nor the stored rows, a single run never changes the
stored rows, a run on a fresh database yields exactly the two tables
`conversations` and `messages`, and the `messages` table holds the foreign
key `conversation_id → conversations.id`. -/
theorem create_tables_idempotent (db : Database) :
    create_tables (create_tables db) = create_tables db ∧
    (create_tables db).convRows = db.convRows ∧
    (create_tables db).msgRows = db.msgRows ∧
    (create_tables emptyDatabase).schema = [conversationsTableDef, messagesTableDef] ∧
    messagesTableDef.foreignKeys = [("conversation_id", "conversations", "id")] := by
  refine ⟨?_, rfl, rfl, by decide, rfl⟩
  unfold create_tables
  have hconv :
      (createTableIfAbsent (createTableIfAbsent db.schema conversationsTableDef)
        messagesTableDef).any (fun u => u.name == conversationsTableDef.name) = true :=
    name_present_mono messagesTableDef
      (name_present_createTableIfAbsent db.schema conversationsTableDef)
  rw [createTableIfAbsent_of_present hconv,
    createTableIfAbsent_of_present
      (name_present_createTableIfAbsent (createTableIfAbsent db.schema conversationsTableDef)
        messagesTableDef)]

theorem length_finalizeResults (l : List CtxItem) (limit : Nat) :
    (finalizeResults l limit).length ≤ limit := by
  simp [finalizeResults, List.length_take_le]

/-- C2: `RAGSystem.search` returns at most `limit` context items, whatever
the text branch and the semantic branch produced, because the merged,
deduplicated list is cut with `[:limit]`. -/
theorem rag_search_result_bounded (s : RAGState) (query : String)
    (useSemantic useText : Bool) (limit : Nat)
    (semCall : Except ChromaFail (List RawDoc)) :
    ((rag_search s query useSemantic useText limit semCall).2).length ≤ limit := by
  unfold rag_search
  by_cases h : (useSemantic && !s.chromaReset) = true
  · simp only [h, if_true]
    by_cases hr : (semantic_search s.hasCollection s.vstore semCall).2.2 = true
    · simp only [hr, if_true]
      exact length_finalizeResults _ _
    · simp only [Bool.not_eq_true] at hr
      simp only [hr, Bool.false_eq_true, if_false]
      exact length_finalizeResults _ _
  · simp only [Bool.not_eq_true] at h
    simp only [h, Bool.false_eq_true, if_false]
    exact length_finalizeResults _ _

/-- C7: every wrapper maps a raised exception in its external call to its
safe fallback value: empty list for `search_conversations`,
`get_all_conversations`, `list_models` and `semantic_search`; `None` (and an
unchanged database) for `create_conversation`, `add_message`,
`get_conversation` and `get_model_info`. -/
theorem failed_calls_yield_fallbacks (db : Database) (e : SqlErr)
    (re : ReqErr) (ce : ChromaFail) (hasCol : Bool) (store : List VecRecord)
    (q cid mid role content ts title model : String) (lim off : Nat) :
    search_conversations db q lim (some e) = [] ∧
    get_all_conversations db lim off (some e) = [] ∧
    list_models (.error re) = [] ∧
    (semantic_search hasCol store (.error ce)).2.1 = [] ∧
    create_conversation db cid title model ts (some e) = (db, none) ∧
    add_message db mid cid role content ts (some e) = (db, none) ∧
    get_conversation db cid (some e) = none ∧
    get_model_info (.error re) = none := by
  refine ⟨rfl, rfl, rfl, ?_, rfl, rfl, rfl, rfl⟩
  cases hasCol <;> cases ce <;> rfl

theorem mkTextItem_eq_none (conv : ConvRow) (m : MsgRow) : mkTextItem conv m = none := rfl

theorem textMsgsLoop_acc (conv : ConvRow) : ∀ (msgs : List MsgRow) (acc : List CtxItem),
    textMsgsLoop conv acc msgs = .ok acc ∨ textMsgsLoop conv acc msgs = .error acc
  | [], _ => Or.inl rfl
  | m :: rest, acc => by
    by_cases h : (m.role == "assistant") = true
    · exact Or.inr (by simp [textMsgsLoop, h, mkTextItem_eq_none])
    · simp only [Bool.not_eq_true] at h
      simp only [textMsgsLoop, h, Bool.false_eq_true, if_false]
      exact textMsgsLoop_acc conv rest acc

theorem textConvsLoop_acc (db : Database) : ∀ (convs : List ConvRow) (acc : List CtxItem),
    textConvsLoop db acc convs = .ok acc ∨ textConvsLoop db acc convs = .error acc
  | [], _ => Or.inl rfl
  | conv :: rest, acc => by
    unfold textConvsLoop
    cases hg : get_conversation db conv.id none with
    | none => exact textConvsLoop_acc db rest acc
    | some full =>
      rcases textMsgsLoop_acc conv full.messages acc with h | h
      · rcases textConvsLoop_acc db rest acc with h2 | h2
        · exact Or.inl (by simp [h, h2])
        · exact Or.inr (by simp [h, h2])
      · exact Or.inr (by simp [h])

/-- The text branch of `RAGSystem.search` never contributes an item: for an
assistant message the `msg["timestamp"]` access raises `KeyError` before
the append, and the except clause of the branch swallows it. -/
theorem textResults_eq_nil (db : Database) (query : String) (limit : Nat) :
    textResults db query limit = [] := by
  unfold textResults
  rcases textConvsLoop_acc db (search_conversations db query limit none) [] with h | h <;>
    rw [h]

/-- C9: every item emitted by the keyword-search branch of
`RAGSystem.search` is the content of an assistant message of the store —
the `if msg["role"] == "assistant"` guard admits no user message (indeed,
by `textResults_eq_nil`, the branch emits nothing at all). -/
theorem text_branch_emits_only_assistant_content (db : Database) (query : String)
    (limit : Nat) :
    ((textResults db query limit).all
      (fun r => db.msgRows.any
        (fun m => m.role == "assistant" && m.content == r.content))) = true := by
  rw [textResults_eq_nil]
  rfl

/-- Database used by the C4 failing input: one conversation whose assistant
message contains the query word. -/
def starveDb : Database :=
  { schema := []
    convRows := [{ id := "c1", title := "Greeting", created_at := "t0", model := "llama3.1",
                   updated_at := "t0" }]
    msgRows := [{ id := "m1", conversation_id := "c1", role := "assistant",
                  content := "hello world", created_at := "t1" }] }

/-- Semantic result from an unrelated conversation used by the C4 failing
input. -/
def starveSem : RawDoc :=
  { page_content := "unrelated semantic answer"
    metadata := { conversation_id := some "c9", conversation_title := some "Other",
                  role := some "assistant", timestamp := some "t2", score := none } }

/-- RAG state for the C4 failing input. -/
def starveState : RAGState :=
  { db := starveDb, hasCollection := true, vstore := [], chromaReset := false }

/-- C4 failing input, evaluated: keyword search matches one conversation
(at least `limit = 1` hit, with an assistant message containing the query),
yet the text branch contributes nothing — `msg["timestamp"]` raises
`KeyError`, the rows only carry `created_at` — and the single output item
is the semantic one, contradicting the claimed starvation of semantic
results. -/
theorem keyword_hits_lost_semantic_kept :
    (search_conversations starveDb "hello" 1 none).length = 1 ∧
    textResults starveDb "hello" 1 = [] ∧
    ((rag_search starveState "hello" true true 1 (.ok [starveSem])).2).map
      CtxItem.source = ["semantic_search"] := by decide

/-- Truth of the underscore-free test for every character of the string:
conversation ids
generated by the store (`str(uuid.uuid4())`, or the literal `"unknown"`)
satisfy it. -/
def noUnderscore (s : String) : Bool := s.data.all (fun c => !(c == '_'))

theorem append_underscore_cancel :
    ∀ (a c b d : List Char),
      a.all (fun ch => !(ch == '_')) = true →
      c.all (fun ch => !(ch == '_')) = true →
      a ++ '_' :: b = c ++ '_' :: d → a = c ∧ b = d
  | [], [], b, d, _, _, h => by
    simp only [List.nil_append, List.cons.injEq] at h
    exact ⟨rfl, h.2⟩
  | [], x :: xs, b, d, _, hc, h => by
    simp only [List.nil_append, List.cons_append, List.cons.injEq] at h
    simp only [List.all_cons, Bool.and_eq_true] at hc
    exact absurd (beq_iff_eq.mpr h.1.symm) (by simpa using hc.1)
  | x :: xs, [], b, d, ha, _, h => by
    simp only [List.nil_append, List.cons_append, List.cons.injEq] at h
    simp only [List.all_cons, Bool.and_eq_true] at ha
    exact absurd (beq_iff_eq.mpr h.1) (by simpa using ha.1)
  | x :: xs, y :: ys, b, d, ha, hc, h => by
    simp only [List.cons_append, List.cons.injEq] at h
    simp only [List.all_cons, Bool.and_eq_true] at ha hc
    obtain ⟨hxs, hb⟩ := append_underscore_cancel xs ys b d ha.2 hc.2 h.2
    exact ⟨by rw [h.1, hxs], hb⟩

theorem dedupKey_data (r : CtxItem) :
    (dedupKey r).data = r.conversation_id.data ++ '_' :: (r.content.take 50).data := by
  simp [dedupKey, String.data_append]

/-- C3 (amended): two merged results are duplicates exactly when their
composite keys — conversation id, an underscore, and the first 50 characters
of content — coincide; whenever conversation ids contain no underscore
(as the UUID-shaped ids the store generates do), this is the same as having
both the same conversation id and the same 50-character content prefix, and
results differing inside the first 50 characters are then both kept. -/
theorem dedup_key_semantics (r1 r2 : CtxItem)
    (h1 : noUnderscore r1.conversation_id = true)
    (h2 : noUnderscore r2.conversation_id = true) :
    (dedupKey r1 = dedupKey r2 ↔
      (r1.conversation_id = r2.conversation_id ∧
        r1.content.take 50 = r2.content.take 50)) ∧
    dedupByKey [] [r1, r2] =
      (if dedupKey r1 = dedupKey r2 then [r1] else [r1, r2]) := by
  unfold noUnderscore at h1 h2
  constructor
  · constructor
    · intro h
      have hd := congrArg String.data h
      rw [dedupKey_data, dedupKey_data] at hd
      obtain ⟨hcid, htake⟩ := append_underscore_cancel _ _ _ _ h1 h2 hd
      exact ⟨String.ext hcid, String.ext htake⟩
    · rintro ⟨hc, ht⟩
      unfold dedupKey
      rw [hc, ht]
  · by_cases hk : dedupKey r1 = dedupKey r2
    · simp [dedupByKey, hk]
    · have hk' : ¬dedupKey r2 = dedupKey r1 := fun hh => hk hh.symm
      simp [dedupByKey, hk, hk']

/-- Underscore-free first item for the C3 witness. -/
def witItemA : CtxItem :=
  { content := "alpha answer", source := "text_search", conversation_id := "conv-a",
    conversation_title := "A", timestamp := "t", score := none }

/-- Underscore-free second item for the C3 witness. -/
def witItemB : CtxItem :=
  { content := "beta answer", source := "semantic_search", conversation_id := "conv-b",
    conversation_title := "B", timestamp := "t", score := some 0 }

/-- Witness for C3 (amended) at concrete underscore-free items. -/
theorem dedup_key_semantics_witness :
    ((dedupKey witItemA = dedupKey witItemB ↔
      (witItemA.conversation_id = witItemB.conversation_id ∧
        witItemA.content.take 50 = witItemB.content.take 50)) ∧
    dedupByKey [] [witItemA, witItemB] =
      (if dedupKey witItemA = dedupKey witItemB then [witItemA]
       else [witItemA, witItemB])) :=
  dedup_key_semantics witItemA witItemB (by decide) (by decide)

/-- First colliding item for the C3 counterexample: conversation id `a_b`,
content `c`. -/
def collideA : CtxItem :=
  { content := "c", source := "text_search", conversation_id := "a_b",
    conversation_title := "T", timestamp := "t", score := none }

/-- Second colliding item for the C3 counterexample: conversation id `a`,
content `b_c` — a different conversation and a different 50-character
prefix, but the same composite key `a_b_c`. -/
def collideB : CtxItem :=
  { content := "b_c", source := "semantic_search", conversation_id := "a",
    conversation_title := "T", timestamp := "t", score := some 0 }

set_option maxRecDepth 4000 in
/-- Counterexample to C3 as stated: the two items have different
conversation ids and contents that differ inside the first 50 characters,
yet deduplication drops the second one, because the separator of the
composite key can be injected. -/
theorem dedup_collision_across_conversations :
    dedupByKey [] [collideA, collideB] = [collideA] ∧
    collideA.conversation_id ≠ collideB.conversation_id ∧
    collideA.content.take 50 ≠ collideB.content.take 50 := by decide

/-- Vector record left from an earlier session, used by the C5
counterexample. -/
def orphanRec : VecRecord :=
  { message_id := "m1", content := "stored answer"
    meta := { conversation_id := some "c1", conversation_title := some "T",
              role := some "assistant", timestamp := some "", score := none } }

/-- Relational store for the C5 counterexample. -/
def orphanDb : Database :=
  { schema := []
    convRows := [{ id := "c1", title := "T", created_at := "t0", model := "llama3.1",
                   updated_at := "t0" }]
    msgRows := [{ id := "m1", conversation_id := "c1", role := "assistant",
                  content := "stored answer", created_at := "t1" }] }

/-- RAG state for the C5 counterexample: the persisted vector records from an
earlier session are still on disk, but `VectorStore.__init__` failed in this
session, leaving `self.collection = None`. -/
def orphanState : RAGState :=
  { db := orphanDb, hasCollection := false, vstore := [orphanRec], chromaReset := false }

/-- Counterexample to C5 as stated: `RAGSystem.delete_conversation` returns
`True` (the relational rows are gone), but the vector record whose metadata
carries the deleted conversation id survives, because
`VectorStore.delete_conversation_messages` bails out (returning `False`,
which the caller ignores) when the collection is uninitialized. -/
theorem delete_leaves_vector_record_behind :
    ((rag_delete_conversation orphanState "c1" none).2 = true) ∧
    ((rag_delete_conversation orphanState "c1" none).1.vstore = [orphanRec]) ∧
    orphanRec.meta.conversation_id = some "c1" ∧
    ((rag_delete_conversation orphanState "c1" none).1.db.msgRows = []) ∧
    ((rag_delete_conversation orphanState "c1" none).1.db.convRows = []) := by decide

theorem add_message_msgRows_sublist (db : Database) (mid cid role content ts : String)
    (io : Option SqlErr) : List.Sublist db.msgRows (add_message db mid cid role content ts io).1.msgRows := by
  unfold add_message
  cases io with
  | some e => exact List.Sublist.refl _
  | none =>
    by_cases h : db.msgRows.any (fun m => m.id == mid) = true
    · simp [h]
    · simp only [Bool.not_eq_true] at h
      simp only [h, Bool.false_eq_true, if_false]
      exact List.sublist_append_left _ _

/-- C5 (amended): when the ChromaDB collection is initialized and the
`chroma_reset` flag is clear, a successful `RAGSystem.delete_conversation`
removes every message row of the conversation, the conversation row itself,
and every vector record whose metadata carries that conversation id; and no
other modelled operation ever removes a message row. -/
theorem rag_delete_conversation_cascades (db : Database) (vstore : List VecRecord)
    (cid : String) :
    ((rag_delete_conversation
        { db := db, hasCollection := true, vstore := vstore, chromaReset := false }
        cid none).2 = true) ∧
    (((rag_delete_conversation
        { db := db, hasCollection := true, vstore := vstore, chromaReset := false }
        cid none).1.db.msgRows.all (fun m => !(m.conversation_id == cid))) = true) ∧
    (((rag_delete_conversation
        { db := db, hasCollection := true, vstore := vstore, chromaReset := false }
        cid none).1.db.convRows.all (fun c => !(c.id == cid))) = true) ∧
    (((rag_delete_conversation
        { db := db, hasCollection := true, vstore := vstore, chromaReset := false }
        cid none).1.vstore.all (fun v => !(v.meta.conversation_id == some cid))) = true) ∧
    (∀ cid2 title model ts io,
      List.Sublist db.msgRows (create_conversation db cid2 title model ts io).1.msgRows) ∧
    (∀ mid cid2 role content ts io,
      List.Sublist db.msgRows (add_message db mid cid2 role content ts io).1.msgRows) ∧
    (∀ (s : RAGState) (mid cid2 role content ts title : String) (io : Option SqlErr),
      List.Sublist s.db.msgRows (add_message_to_stores s mid cid2 role content ts title io).1.db.msgRows) ∧
    (∀ (s : RAGState) (q : String) (us ut : Bool) (lim : Nat)
        (call : Except ChromaFail (List RawDoc)),
      (rag_search s q us ut lim call).1.db = s.db) := by
  refine ⟨rfl, ?_, ?_, ?_, ?_, ?_, ?_, ?_⟩
  · simp only [rag_delete_conversation, delete_conversation_sql, List.all_eq_true]
    intro m hm
    exact (List.mem_filter.mp hm).2
  · simp only [rag_delete_conversation, delete_conversation_sql, List.all_eq_true]
    intro c hc
    exact (List.mem_filter.mp hc).2
  · simp only [rag_delete_conversation, vs_delete_conversation_messages,
      Bool.not_false, if_true, List.all_eq_true]
    intro v hv
    exact (List.mem_filter.mp hv).2
  · intro cid2 title model ts io
    unfold create_conversation
    cases io with
    | some e => exact List.Sublist.refl _
    | none =>
      by_cases h : db.convRows.any (fun c => c.id == cid2) = true
      · simp [h]
      · simp only [Bool.not_eq_true] at h
        simp [h]
  · intro mid cid2 role content ts io
    exact add_message_msgRows_sublist db mid cid2 role content ts io
  · intro s mid cid2 role content ts title io
    unfold add_message_to_stores
    cases hr : (add_message s.db mid cid2 role content ts io).2 with
    | none =>
      simpa [hr] using add_message_msgRows_sublist s.db mid cid2 role content ts io
    | some m =>
      by_cases hg : (role == "assistant" && !s.chromaReset) = true
      · simpa [hr, hg] using add_message_msgRows_sublist s.db mid cid2 role content ts io
      · simp only [Bool.not_eq_true] at hg
        simpa [hr, hg] using add_message_msgRows_sublist s.db mid cid2 role content ts io
  · intro s q us ut lim call
    unfold rag_search
    by_cases h : (us && !s.chromaReset) = true
    · simp only [h, if_true]
      by_cases h2 : (semantic_search s.hasCollection s.vstore call).2.2 = true
      · simp [h2]
      · simp only [Bool.not_eq_true] at h2
        simp [h2]
    · simp only [Bool.not_eq_true] at h
      simp [h]

end StAgno
